import Mathlib

/-!
Shallow embedding of `src/content/conf.py`, the Sphinx configuration file of
the ENCCS `julia-for-hpc` lesson repository, together with theorems settling
the specification's claims about it.

The Python file is declarative: it binds module-level configuration
variables, defines three directive subclasses distinguished only by their
`extra_classes` list, defines a `setup(app)` hook that registers one
stylesheet, and conditionally binds `html_js_files` depending on the
environment variable `GITHUB_REF`.

We model a "load" of the module as a pure function from the inputs the module
reads — the value of the environment variable `GITHUB_REF` (an
`Option String`, `none` meaning unset) and the directory basename that
`basename(dirname(realpath(__file__)))` would produce — to a `Config` record
holding every configuration variable the module binds.  A variable that the
module may leave unbound (`html_js_files`) is modelled as an `Option`, with
`none` meaning "not defined at all".  The `setup` hook is modelled as a pure
function on an `App` state whose `add_css_file` effect appends to a list.
-/

namespace ConfPy

/-- Python `os.environ.get(key, default)`: the variable's value when it is
set, the default otherwise. -/
def envGet (v : Option String) (d : String) : String := v.getD d

/-- Python `a or b` on strings: `a` when `a` is truthy (non-empty),
otherwise `b`.  Used on line 92 of `conf.py` for the `github_repo`
auto-detection fallback. -/
def pyOr (a b : String) : String := if a = "" then b else a

/-- Line 20: `project = 'Julia for High-Performance Scientific Computing'`. -/
def project : String := "Julia for High-Performance Scientific Computing"

/-- Line 21 of `conf.py`. -/
def copyright : String := "2022, EuroCC National Competence Center Sweden"

/-- Line 22: `author = 'Kjartan Thor Wikfeldt'`. -/
def author : String := "Kjartan Thor Wikfeldt"

/-- Line 23: `github_user = 'enccs'`. -/
def github_user : String := "enccs"

/-- Line 24: `github_repo_name = 'Julia-for-HPC'`. -/
def github_repo_name : String := "Julia-for-HPC"

/-- Line 25: `github_version = 'master'`. -/
def github_version : String := "master"

/-- Line 26: `conf_py_path = '/content/'`. -/
def conf_py_path : String := "/content/"

/-- Lines 33-40: the uncommented entries of the `extensions` list. -/
def extensions : List String :=
  ["sphinx.ext.githubpages", "sphinx_lesson", "sphinx.ext.todo"]

/-- Line 50 of `conf.py`. -/
def jupyter_execute_notebooks : String := "cache"

/-- Lines 58-66 of `conf.py`. -/
def exclude_patterns : List String :=
  ["code*", "README*", "_build", "Thumbs.db", ".DS_Store",
   "jupyter_execute", "*venv*"]

/-- Line 74: `html_theme = "sphinx_rtd_theme"`. -/
def html_theme : String := "sphinx_rtd_theme"

/-- Line 75 of `conf.py`. -/
def html_logo : String := "img/ENCCS.jpg"

/-- Line 76 of `conf.py`. -/
def html_favicon : String := "img/favicon.ico"

/-- Line 82: `html_static_path = ["css"]`. -/
def html_static_path : List String := ["css"]

/-- The `html_context` dictionary of lines 87-95, with its fixed keys as
record fields. -/
structure HtmlContext where
  display_github : Bool
  github_user : String
  github_repo : String
  github_version : String
  conf_py_path : String
deriving DecidableEq, Repr

/-- Lines 87-95 of `conf.py`: `html_context`, parameterised by the
directory basename that `basename(dirname(realpath(__file__)))` would
compute, which feeds the `or` fallback on line 92. -/
def html_context (dir_basename : String) : HtmlContext :=
  { display_github := true
  , github_user := github_user
  , github_repo := pyOr github_repo_name dir_basename
  , github_version := github_version
  , conf_py_path := conf_py_path }

/-- Line 97 of `conf.py`. -/
def todo_include_todos : Bool := true

/-- A directive subclass of `_BaseCRDirective` (lines 127-134) is
distinguished in `conf.py` solely by its `extra_classes` class attribute. -/
structure Directive where
  extra_classes : List String
deriving DecidableEq, Repr

/-- Lines 127-128: `class TypealongDirective(_BaseCRDirective):
extra_classes = ["toggle-shown", "dropdown"]`. -/
def TypealongDirective : Directive :=
  { extra_classes := ["toggle-shown", "dropdown"] }

/-- Lines 130-131: `class ParametersDirective(_BaseCRDirective):
extra_classes = ["dropdown"]`. -/
def ParametersDirective : Directive :=
  { extra_classes := ["dropdown"] }

/-- Lines 133-134: `class DemoDirective(_BaseCRDirective):
extra_classes = ["toggle-shown", "dropdown"]`. -/
def DemoDirective : Directive :=
  { extra_classes := ["toggle-shown", "dropdown"] }

/-- Line 136: `DIRECTIVES = [TypealongDirective, ParametersDirective,
DemoDirective]`. -/
def DIRECTIVES : List Directive :=
  [TypealongDirective, ParametersDirective, DemoDirective]

/-- A `html_js_files` entry: a script URL together with its attribute
dictionary (modelled as an association list). -/
abbrev JsFile : Type := String × List (String × String)

/-- The single script entry of lines 148-151.  In the Python source the
string `"\` at end of line 149 followed by `defer"` on line 150 is a
backslash line-continuation inside the string literal, so the attribute
value is exactly `"defer"`. -/
def plausibleScript : JsFile :=
  ("https://plausible.io/js/script.js",
   [("data-domain", "enccs.github.io/julia-for-hpc"), ("defer", "defer")])

/-- Lines 146-151: `html_js_files` is bound only when
`os.environ.get('GITHUB_REF', '') == 'refs/heads/main'`; `none` models the
variable being left undefined. -/
def html_js_files (github_ref : Option String) : Option (List JsFile) :=
  if envGet github_ref "" = "refs/heads/main" then some [plausibleScript]
  else none

/-- The full set of configuration variables bound by one load of
`conf.py`. -/
structure Config where
  project : String
  copyright : String
  author : String
  github_user : String
  github_repo_name : String
  github_version : String
  conf_py_path : String
  extensions : List String
  jupyter_execute_notebooks : String
  exclude_patterns : List String
  html_theme : String
  html_logo : String
  html_favicon : String
  html_title : String
  html_static_path : List String
  html_context : HtmlContext
  todo_include_todos : Bool
  typealong : Directive
  parameters : Directive
  demo : Directive
  html_js_files : Option (List JsFile)
deriving DecidableEq, Repr

/-- One load of the module `conf.py`: a pure function of the two inputs the
module reads, the `GITHUB_REF` environment variable (`none` when unset) and
the basename of the directory containing the file on disk.  Every field is
assembled exactly as the corresponding module-level binding in the source;
`html_title := project` mirrors line 77. -/
def loadConf (github_ref : Option String) (dir_basename : String) : Config :=
  { project := project
  , copyright := copyright
  , author := author
  , github_user := github_user
  , github_repo_name := github_repo_name
  , github_version := github_version
  , conf_py_path := conf_py_path
  , extensions := extensions
  , jupyter_execute_notebooks := jupyter_execute_notebooks
  , exclude_patterns := exclude_patterns
  , html_theme := html_theme
  , html_logo := html_logo
  , html_favicon := html_favicon
  , html_title := project
  , html_static_path := html_static_path
  , html_context := html_context dir_basename
  , todo_include_todos := todo_include_todos
  , typealong := TypealongDirective
  , parameters := ParametersDirective
  , demo := DemoDirective
  , html_js_files := html_js_files github_ref }

/-- The Sphinx application state visible to the `setup` hook: the loaded
configuration plus the lists that `add_css_file` and `add_js_file`
append to. -/
structure App where
  config : Config
  css_files : List String
  js_files : List JsFile
deriving DecidableEq, Repr

/-- Lines 141-144: `def setup(app): app.add_css_file("overrides.css")`.
The loop over `DIRECTIVES` is commented out in the source; the hook's only
statement is the `add_css_file` call, which appends to the application's
stylesheet list. -/
def setup (app : App) : App :=
  { app with css_files := app.css_files ++ ["overrides.css"] }

/-- A concrete application state used in closed statements: the
configuration as loaded on the main branch of the CI environment, with no
assets registered yet. -/
def appMain : App :=
  { config := loadConf (some "refs/heads/main") "content"
  , css_files := []
  , js_files := [] }

/-- C1: for every environment in which `GITHUB_REF` is unset or its value
differs from `'refs/heads/main'`, loading the configuration produces no
analytics script reference: `html_js_files` is absent from the resulting
configuration. -/
theorem C1_no_js_when_ref_not_main (env : Option String) (fb : String)
    (h : env = none ∨ envGet env "" ≠ "refs/heads/main") :
    (loadConf env fb).html_js_files = none := by
  rcases h with h | h
  · subst h; rfl
  · simp only [loadConf, ConfPy.html_js_files, if_neg h]

/-- Witness for C1 at the concrete environment where `GITHUB_REF` is set to
`'refs/heads/master'`. -/
theorem C1_no_js_when_ref_not_main_witness :
    ((some "refs/heads/master" : Option String) = none ∨
      envGet (some "refs/heads/master") "" ≠ "refs/heads/main") ∧
    (loadConf (some "refs/heads/master") "content").html_js_files = none :=
  ⟨Or.inr (by decide),
   C1_no_js_when_ref_not_main (some "refs/heads/master") "content"
     (Or.inr (by decide))⟩

/-- C2: for every environment in which `GITHUB_REF` equals
`'refs/heads/main'` exactly, loading the configuration produces the
analytics script reference with exactly its two fixed attributes,
`data-domain = 'enccs.github.io/julia-for-hpc'` and `defer = 'defer'`. -/
theorem C2_js_present_on_main (env : Option String) (fb : String)
    (h : env = some "refs/heads/main") :
    (loadConf env fb).html_js_files =
      some [("https://plausible.io/js/script.js",
             [("data-domain", "enccs.github.io/julia-for-hpc"),
              ("defer", "defer")])] := by
  subst h; rfl

/-- Witness for C2 at the concrete environment where `GITHUB_REF` is set to
exactly `'refs/heads/main'`. -/
theorem C2_js_present_on_main_witness :
    (loadConf (some "refs/heads/main") "content").html_js_files =
      some [("https://plausible.io/js/script.js",
             [("data-domain", "enccs.github.io/julia-for-hpc"),
              ("defer", "defer")])] :=
  C2_js_present_on_main (some "refs/heads/main") "content" rfl

/-- Counterexample to C3: the claim asserts that no two of the three
directive descriptors have the same tag set, but `TypealongDirective` and
`DemoDirective` are defined with identical `extra_classes` lists
(`["toggle-shown", "dropdown"]`), so they are equal as descriptors. -/
theorem C3_counterexample : TypealongDirective = DemoDirective := rfl

/-- C3 (amended): each of the three directive descriptors exposes a
non-empty fixed tag list, and `ParametersDirective` differs from each of the
other two; however `TypealongDirective` and `DemoDirective` expose the same
tag list, so the three sets are not pairwise distinct. -/
theorem C3_directive_tags_amended :
    TypealongDirective.extra_classes ≠ [] ∧
    ParametersDirective.extra_classes ≠ [] ∧
    DemoDirective.extra_classes ≠ [] ∧
    ParametersDirective.extra_classes ≠ TypealongDirective.extra_classes ∧
    ParametersDirective.extra_classes ≠ DemoDirective.extra_classes ∧
    TypealongDirective.extra_classes = DemoDirective.extra_classes := by
  refine ⟨?_, ?_, ?_, ?_, ?_, rfl⟩ <;> decide

/-- Counterexample to C4: the claim asserts that the `setup` hook itself
reads `GITHUB_REF` and registers the analytics script when the value is
`'refs/heads/main'`.  On the concrete application state `appMain`, whose
configuration was loaded with `GITHUB_REF = 'refs/heads/main'`, invoking
`setup` registers no script at all (`js_files` stays empty) even though the
module-level load did produce the script reference. -/
theorem C4_counterexample :
    (setup appMain).js_files = [] ∧
    appMain.config.html_js_files = some [plausibleScript] := by
  exact ⟨rfl, rfl⟩

/-- C4 (amended): the `setup` hook, when invoked, has exactly one effect:
it appends the stylesheet `'overrides.css'` to the registered stylesheets,
leaving the configuration and the registered scripts untouched.  The
`GITHUB_REF`-gated analytics script reference is instead bound at module
load time, as the `html_js_files` configuration value. -/
theorem C4_setup_amended (app : App) (env : Option String) (fb : String) :
    setup app = { app with css_files := app.css_files ++ ["overrides.css"] } ∧
    (loadConf env fb).html_js_files =
      (if envGet env "" = "refs/heads/main" then some [plausibleScript]
       else none) :=
  ⟨rfl, rfl⟩

/-- C5: for any fixed environment, loading the configuration twice yields
identical values for every configuration variable, in particular the
project name, the author and the theme identifier: the load is
deterministic in the environment. -/
theorem C5_load_deterministic (env : Option String) (fb : String)
    (c₁ c₂ : Config) (h₁ : c₁ = loadConf env fb) (h₂ : c₂ = loadConf env fb) :
    c₁.project = c₂.project ∧ c₁.author = c₂.author ∧
    c₁.html_theme = c₂.html_theme ∧ c₁ = c₂ := by
  subst h₁; subst h₂; exact ⟨rfl, rfl, rfl, rfl⟩

/-- Witness for C5: two loads in the concrete environment where
`GITHUB_REF` is unset agree on every configuration variable. -/
theorem C5_load_deterministic_witness :
    (loadConf none "content").project = (loadConf none "content").project ∧
    (loadConf none "content").author = (loadConf none "content").author ∧
    (loadConf none "content").html_theme =
      (loadConf none "content").html_theme ∧
    loadConf none "content" = loadConf none "content" :=
  C5_load_deterministic none "content" (loadConf none "content")
    (loadConf none "content") rfl rfl

/-- C6: after loading, the metadata values are the fixed strings of the
source — project name, author, copyright, repository owner, repository
name, branch — and the HTML title equals the project name. -/
theorem C6_metadata_fixed (env : Option String) (fb : String) :
    (loadConf env fb).project =
      "Julia for High-Performance Scientific Computing" ∧
    (loadConf env fb).author = "Kjartan Thor Wikfeldt" ∧
    (loadConf env fb).copyright =
      "2022, EuroCC National Competence Center Sweden" ∧
    (loadConf env fb).github_user = "enccs" ∧
    (loadConf env fb).github_repo_name = "Julia-for-HPC" ∧
    (loadConf env fb).github_version = "master" ∧
    (loadConf env fb).html_title = (loadConf env fb).project :=
  ⟨rfl, rfl, rfl, rfl, rfl, rfl, rfl⟩

/-- C7: invoking the `setup` hook leaves every configuration value other
than the registered stylesheets unchanged — the whole configuration record
(hence project, author, extensions, exclusion patterns, HTML context,
static paths and the three directives' tag lists) and the registered
scripts are identical before and after the hook runs. -/
theorem C7_setup_frame (app : App) :
    (setup app).config = app.config ∧
    (setup app).js_files = app.js_files ∧
    (setup app).config.project = app.config.project ∧
    (setup app).config.author = app.config.author ∧
    (setup app).config.extensions = app.config.extensions ∧
    (setup app).config.exclude_patterns = app.config.exclude_patterns ∧
    (setup app).config.html_context = app.config.html_context ∧
    (setup app).config.html_static_path = app.config.html_static_path ∧
    (setup app).config.typealong.extra_classes =
      app.config.typealong.extra_classes ∧
    (setup app).config.parameters.extra_classes =
      app.config.parameters.extra_classes ∧
    (setup app).config.demo.extra_classes =
      app.config.demo.extra_classes :=
  ⟨rfl, rfl, rfl, rfl, rfl, rfl, rfl, rfl, rfl, rfl, rfl⟩

/-- C8: because `github_repo_name` is the non-empty constant
`'Julia-for-HPC'`, the directory-name auto-detection fallback in
`html_context` is never taken: for every load, whatever basename the
file's directory has, `html_context.github_repo` equals
`'Julia-for-HPC'`. -/
theorem C8_repo_name_no_fallback (env : Option String) (fb : String) :
    github_repo_name ≠ "" ∧
    (loadConf env fb).html_context.github_repo = "Julia-for-HPC" :=
  ⟨by decide, rfl⟩

/-- C9: when `GITHUB_REF` is absent, the environment lookup falls back to
the default empty string, the load completes (in this embedding `loadConf`
is a total function, so it yields a configuration record), and
`html_js_files` is not defined at all in the loaded configuration —
absent (`none`), as opposed to present but empty. -/
theorem C9_absent_env_no_js (fb : String) :
    envGet none "" = "" ∧
    (loadConf none fb).html_js_files = none ∧
    (loadConf none fb).html_js_files ≠ some [] :=
  ⟨rfl, rfl, fun h => Option.noConfusion h⟩

/-- C10: every one of the three directive classes includes the tag
`'dropdown'` in its `extra_classes` list; `TypealongDirective` and
`DemoDirective` have element-wise identical lists
`["toggle-shown", "dropdown"]`, while `ParametersDirective`'s list
`["dropdown"]` lacks `'toggle-shown'`. -/
theorem C10_directive_tag_lists :
    "dropdown" ∈ TypealongDirective.extra_classes ∧
    "dropdown" ∈ ParametersDirective.extra_classes ∧
    "dropdown" ∈ DemoDirective.extra_classes ∧
    TypealongDirective.extra_classes = ["toggle-shown", "dropdown"] ∧
    DemoDirective.extra_classes = ["toggle-shown", "dropdown"] ∧
    TypealongDirective.extra_classes = DemoDirective.extra_classes ∧
    ParametersDirective.extra_classes = ["dropdown"] ∧
    "toggle-shown" ∉ ParametersDirective.extra_classes := by
  refine ⟨?_, ?_, ?_, rfl, rfl, rfl, rfl, ?_⟩ <;> decide

end ConfPy
